import Mathlib

/-!
Shallow embedding of `src/jetson_stats_prometheus_collector.py`
(`CustomCollector.collect`, lines 43-196).

The Python collector is a generator: on each scrape it checks liveness
(`self._jetson.ok()`) and, if alive, yields typed metric families one at a
time, reading fields of the jtop snapshot.  Missing dictionary keys raise
`KeyError` and missing list indices raise `IndexError`; the specification
groups both under the name `FieldMissingError`.  We model the snapshot as an
explicit structure (association lists for the Python dictionaries, a list for
the per-core CPU array), each family construction as an
`Except FieldMissingError MetricFamily`, and a whole render pass as the pair
of (the list of families yielded before the generator stops or raises,
the error raised, if any) — this captures the generator's lazy
prefix-delivery semantics.

Numeric gauge values are modelled as rationals: the collector only passes
values through (no arithmetic is performed on the float readings), so the
embedding is exact.
-/

/-- Error raised when a required field is absent: a Python `KeyError`
(missing dictionary key) or `IndexError` (missing list index).  The spec
calls both `FieldMissingError`. -/
inductive FieldMissingError where
  | key (k : String)
  | index (i : Nat)
deriving DecidableEq

/-- A value carried by one metric sample: a number (GaugeMetricFamily) or a
string-to-string dictionary (InfoMetricFamily). -/
inductive MetricValue where
  | num (q : ℚ)
  | info (kvs : List (String × String))
deriving DecidableEq

/-- One `add_metric` call: the label value and the sample value. -/
structure MetricRecord where
  labelValue : String
  value : MetricValue
deriving DecidableEq

/-- One yielded metric family: constructor name, help string, the single
label key, and the records added before the yield. -/
structure MetricFamily where
  name : String
  help : String
  labelKey : String
  records : List MetricRecord
deriving DecidableEq

deriving instance DecidableEq for Except

/-- One power rail's readings: `{'power': .., 'volt': .., 'curr': ..}`. -/
structure RailReading where
  power : ℚ
  volt : ℚ
  curr : ℚ
deriving DecidableEq

/-- The jtop telemetry snapshot as read by `collect`.  Python dictionaries
whose keys the code looks up dynamically (and which may be missing) are
association lists; nested accesses with a single fixed path
(e.g. `gpu['gv11b']['status']['load']`, `memory['RAM']['used']`,
`fan['tegra_pwmfan']['speed']`) are flattened to one field each. -/
structure Snapshot where
  /-- `self._jetson.board['platform']` -/
  board_platform : List (String × String)
  /-- `self._jetson.board['hardware']` -/
  board_hardware : List (String × String)
  /-- `self._jetson.nvpmodel.name` -/
  nvpmodel_name : String
  /-- `self._jetson.uptime.days` (timedelta days component) -/
  uptime_days : Int
  /-- `self._jetson.uptime.seconds` (timedelta seconds component, < 86400) -/
  uptime_seconds : Nat
  /-- `self._jetson.cpu['cpu']`, each entry's `['freq']['cur']` -/
  cpu_cores : List ℚ
  /-- `self._jetson.gpu['gv11b']['status']['load']` -/
  gpu_load : ℚ
  /-- `self._jetson.memory['RAM']['used']` -/
  ram_used : ℚ
  /-- `self._jetson.memory['RAM']['shared']` -/
  ram_shared : ℚ
  /-- `self._jetson.memory['RAM']['tot']` -/
  ram_tot : ℚ
  /-- `self._jetson.disk['used']` -/
  disk_used : ℚ
  /-- `self._jetson.disk['total']` -/
  disk_total : ℚ
  /-- `self._jetson.disk['available']` -/
  disk_available : ℚ
  /-- `self._jetson.disk['available_no_root']` -/
  disk_available_no_root : ℚ
  /-- `self._jetson.fan['tegra_pwmfan']['speed']` -/
  fan_speed : ℚ
  /-- `self._jetson.fan['tegra_pwmfan']['rpm']` -/
  fan_rpm : ℚ
  /-- `self._jetson.memory['SWAP']['used']` -/
  swap_used : ℚ
  /-- `self._jetson.memory['SWAP']['tot']` -/
  swap_tot : ℚ
  /-- `self._jetson.temperature`: sensor name to reading, sparse -/
  temperature : List (String × ℚ)
  /-- `self._jetson.power['rail']`: rail name to readings -/
  power_rail : List (String × RailReading)

/-- Python dictionary lookup on an association list. -/
def lookup {α : Type} (m : List (String × α)) (k : String) : Option α :=
  (m.find? (fun p => p.1 == k)).map (fun p => p.2)

/-- `d[k]`: dictionary access that raises `KeyError` when the key is
absent. -/
def getKey {α : Type} (m : List (String × α)) (k : String) :
    Except FieldMissingError α :=
  match lookup m k with
  | some v => Except.ok v
  | none => Except.error (FieldMissingError.key k)

/-- `l[i]`: list indexing that raises `IndexError` past the end. -/
def getIdx (l : List ℚ) (i : Nat) : Except FieldMissingError ℚ :=
  match l.get? i with
  | some v => Except.ok v
  | none => Except.error (FieldMissingError.index i)

/-- `d[k] if k in d else 0`: the temperature defaulting idiom of
lines 159-165. -/
def tempOrZero (m : List (String × ℚ)) (k : String) : ℚ :=
  match lookup m k with
  | some v => v
  | none => 0

/-- Lines 52-66: the board-info family.  The label dictionary literal is
evaluated key by key before `add_metric` runs, so the first absent key
raises before any record exists. -/
def boardFamily (s : Snapshot) : Except FieldMissingError MetricFamily :=
  (getKey s.board_platform "Machine").bind fun machine =>
  (getKey s.board_platform "Distribution").bind fun distribution =>
  (getKey s.board_platform "Release").bind fun release =>
  (getKey s.board_hardware "Jetpack").bind fun jetpack =>
  (getKey s.board_hardware "L4T").bind fun l4t =>
  (getKey s.board_hardware "Module").bind fun module =>
  (getKey s.board_hardware "Model").bind fun model =>
  (getKey s.board_hardware "Codename").bind fun codename =>
  (getKey s.board_hardware "SoC").bind fun soc =>
  (getKey s.board_hardware "CUDA Arch BIN").bind fun cuda_arch_bin =>
  (getKey s.board_hardware "Serial Number").bind fun serial_number =>
  Except.ok
    { name := "jetson_info_board", help := "Board sys info",
      labelKey := "board_info",
      records := [⟨"info", MetricValue.info
        [("machine", machine), ("distribution", distribution),
         ("release", release), ("jetpack", jetpack), ("l4t", l4t),
         ("module", module), ("type", model), ("codename", codename),
         ("soc", soc), ("cuda_arch_bin", cuda_arch_bin),
         ("serial_number", serial_number)]⟩] }

/-- Lines 71-73: the NV power mode family. -/
def nvpmodeFamily (s : Snapshot) : Except FieldMissingError MetricFamily :=
  Except.ok
    { name := "jetson_nvpmode", help := "NV power mode", labelKey := "nvpmode",
      records := [⟨"mode", MetricValue.info [("mode", s.nvpmodel_name)]⟩] }

/-- Lines 78-86: the uptime family.  `days` is the timedelta's own days
component, `hours = seconds // 3600`, `minutes = (seconds // 60) % 60`,
with Python integer floor division. -/
def uptimeFamily (s : Snapshot) : Except FieldMissingError MetricFamily :=
  Except.ok
    { name := "jetson_uptime", help := "System uptime", labelKey := "uptime",
      records := [⟨"days", MetricValue.num (s.uptime_days : ℚ)⟩,
                  ⟨"hours", MetricValue.num ((s.uptime_seconds / 3600 : ℕ) : ℚ)⟩,
                  ⟨"minutes", MetricValue.num ((s.uptime_seconds / 60 % 60 : ℕ) : ℚ)⟩] }

/-- Lines 91-100: the per-core CPU family: indices 0-7, labels
`cpu_1`..`cpu_8`.  An index past the end of the core list raises. -/
def cpuFamily (s : Snapshot) : Except FieldMissingError MetricFamily :=
  (getIdx s.cpu_cores 0).bind fun c0 =>
  (getIdx s.cpu_cores 1).bind fun c1 =>
  (getIdx s.cpu_cores 2).bind fun c2 =>
  (getIdx s.cpu_cores 3).bind fun c3 =>
  (getIdx s.cpu_cores 4).bind fun c4 =>
  (getIdx s.cpu_cores 5).bind fun c5 =>
  (getIdx s.cpu_cores 6).bind fun c6 =>
  (getIdx s.cpu_cores 7).bind fun c7 =>
  Except.ok
    { name := "jetson_usage_cpu", help := "CPU % schedutil", labelKey := "cpu",
      records := [⟨"cpu_1", MetricValue.num c0⟩, ⟨"cpu_2", MetricValue.num c1⟩,
                  ⟨"cpu_3", MetricValue.num c2⟩, ⟨"cpu_4", MetricValue.num c3⟩,
                  ⟨"cpu_5", MetricValue.num c4⟩, ⟨"cpu_6", MetricValue.num c5⟩,
                  ⟨"cpu_7", MetricValue.num c6⟩, ⟨"cpu_8", MetricValue.num c7⟩] }

/-- Lines 105-110: the GPU family. -/
def gpuFamily (s : Snapshot) : Except FieldMissingError MetricFamily :=
  Except.ok
    { name := "jetson_usage_gpu", help := "GPU % schedutil", labelKey := "gpu",
      records := [⟨"val", MetricValue.num s.gpu_load⟩] }

/-- Lines 115-120: the RAM family. -/
def ramFamily (s : Snapshot) : Except FieldMissingError MetricFamily :=
  Except.ok
    { name := "jetson_usage_ram", help := "Memory usage", labelKey := "ram",
      records := [⟨"used", MetricValue.num s.ram_used⟩,
                  ⟨"shared", MetricValue.num s.ram_shared⟩,
                  ⟨"total", MetricValue.num s.ram_tot⟩] }

/-- Lines 125-130: the disk family. -/
def diskFamily (s : Snapshot) : Except FieldMissingError MetricFamily :=
  Except.ok
    { name := "jetson_usage_disk", help := "Disk space usage", labelKey := "disk",
      records := [⟨"used", MetricValue.num s.disk_used⟩,
                  ⟨"total", MetricValue.num s.disk_total⟩,
                  ⟨"available", MetricValue.num s.disk_available⟩,
                  ⟨"available_no_root", MetricValue.num s.disk_available_no_root⟩] }

/-- Lines 135-142: the fan family. -/
def fanFamily (s : Snapshot) : Except FieldMissingError MetricFamily :=
  Except.ok
    { name := "jetson_usage_fan", help := "Fan usage", labelKey := "fan",
      records := [⟨"speed", MetricValue.num s.fan_speed⟩,
                  ⟨"rpm", MetricValue.num s.fan_rpm⟩] }

/-- Lines 147-153: the swap family. -/
def swapFamily (s : Snapshot) : Except FieldMissingError MetricFamily :=
  Except.ok
    { name := "jetson_usage_swap", help := "Swapfile usage", labelKey := "swap",
      records := [⟨"used", MetricValue.num s.swap_used⟩,
                  ⟨"total", MetricValue.num s.swap_tot⟩] }

/-- Lines 158-166: the temperature family; each of the seven known sensors
defaults to 0 when absent. -/
def temperatureFamily (s : Snapshot) : Except FieldMissingError MetricFamily :=
  Except.ok
    { name := "jetson_temperatures", help := "Sensor temperatures",
      labelKey := "temperature",
      records := [⟨"ao", MetricValue.num (tempOrZero s.temperature "AO")⟩,
                  ⟨"gpu", MetricValue.num (tempOrZero s.temperature "GPU")⟩,
                  ⟨"tdiode", MetricValue.num (tempOrZero s.temperature "Tdiode")⟩,
                  ⟨"aux", MetricValue.num (tempOrZero s.temperature "AUX")⟩,
                  ⟨"cpu", MetricValue.num (tempOrZero s.temperature "CPU")⟩,
                  ⟨"thermal", MetricValue.num (tempOrZero s.temperature "thermal")⟩,
                  ⟨"tboard", MetricValue.num (tempOrZero s.temperature "Tboard")⟩] }

/-- Lines 171-178: the power family over the six fixed rails. -/
def powerFamily (s : Snapshot) : Except FieldMissingError MetricFamily :=
  (getKey s.power_rail "CPU").bind fun cpu =>
  (getKey s.power_rail "CV").bind fun cv =>
  (getKey s.power_rail "GPU").bind fun gpu =>
  (getKey s.power_rail "SOC").bind fun soc =>
  (getKey s.power_rail "SYS5V").bind fun sys5v =>
  (getKey s.power_rail "VDDRQ").bind fun vddrq =>
  Except.ok
    { name := "jetson_usage_power", help := "Power usage", labelKey := "power",
      records := [⟨"cpu", MetricValue.num cpu.power⟩,
                  ⟨"cv", MetricValue.num cv.power⟩,
                  ⟨"gpu", MetricValue.num gpu.power⟩,
                  ⟨"soc", MetricValue.num soc.power⟩,
                  ⟨"sys5v", MetricValue.num sys5v.power⟩,
                  ⟨"vddrq", MetricValue.num vddrq.power⟩] }

/-- Lines 180-187: the voltage family over the six fixed rails. -/
def voltageFamily (s : Snapshot) : Except FieldMissingError MetricFamily :=
  (getKey s.power_rail "CPU").bind fun cpu =>
  (getKey s.power_rail "CV").bind fun cv =>
  (getKey s.power_rail "GPU").bind fun gpu =>
  (getKey s.power_rail "SOC").bind fun soc =>
  (getKey s.power_rail "SYS5V").bind fun sys5v =>
  (getKey s.power_rail "VDDRQ").bind fun vddrq =>
  Except.ok
    { name := "jetson_usage_voltage_levels", help := "Voltage",
      labelKey := "voltage",
      records := [⟨"cpu", MetricValue.num cpu.volt⟩,
                  ⟨"cv", MetricValue.num cv.volt⟩,
                  ⟨"gpu", MetricValue.num gpu.volt⟩,
                  ⟨"soc", MetricValue.num soc.volt⟩,
                  ⟨"sys5v", MetricValue.num sys5v.volt⟩,
                  ⟨"vddrq", MetricValue.num vddrq.volt⟩] }

/-- Lines 189-196: the current family over the six fixed rails. -/
def currentFamily (s : Snapshot) : Except FieldMissingError MetricFamily :=
  (getKey s.power_rail "CPU").bind fun cpu =>
  (getKey s.power_rail "CV").bind fun cv =>
  (getKey s.power_rail "GPU").bind fun gpu =>
  (getKey s.power_rail "SOC").bind fun soc =>
  (getKey s.power_rail "SYS5V").bind fun sys5v =>
  (getKey s.power_rail "VDDRQ").bind fun vddrq =>
  Except.ok
    { name := "jetson_usage_current_values", help := "Current",
      labelKey := "current",
      records := [⟨"cpu", MetricValue.num cpu.curr⟩,
                  ⟨"cv", MetricValue.num cv.curr⟩,
                  ⟨"gpu", MetricValue.num gpu.curr⟩,
                  ⟨"soc", MetricValue.num soc.curr⟩,
                  ⟨"sys5v", MetricValue.num sys5v.curr⟩,
                  ⟨"vddrq", MetricValue.num vddrq.curr⟩] }

/-- The thirteen family constructions of one live render pass, in the
textual order of lines 52-196. -/
def families (s : Snapshot) : List (Except FieldMissingError MetricFamily) :=
  [boardFamily s, nvpmodeFamily s, uptimeFamily s, cpuFamily s, gpuFamily s,
   ramFamily s, diskFamily s, fanFamily s, swapFamily s, temperatureFamily s,
   powerFamily s, voltageFamily s, currentFamily s]

/-- Generator semantics: the families yielded before the first failing
construction, paired with the error raised there (if any).  A family is
yielded only once complete; an error stops the pass, so everything before
the failing family has already been delivered to the consumer. -/
def runFamilies :
    List (Except FieldMissingError MetricFamily) →
    List MetricFamily × Option FieldMissingError
  | [] => ([], none)
  | Except.error e :: _ => ([], some e)
  | Except.ok f :: rest =>
      let r := runFamilies rest
      (f :: r.1, r.2)

/-- `CustomCollector.collect` (lines 43-196): when `self._jetson.ok()` is
false the generator body is skipped and nothing is yielded; otherwise the
thirteen families are produced in order with generator semantics. -/
def collect (alive : Bool) (s : Snapshot) :
    List MetricFamily × Option FieldMissingError :=
  if alive then runFamilies (families s) else ([], none)

/-! ### Concrete snapshots used to exercise the claims -/

/-- A fully-populated `board['platform']` dictionary. -/
def fullPlatform : List (String × String) :=
  [("Machine", "aarch64"), ("Distribution", "Ubuntu 18.04 Bionic Beaver"),
   ("Release", "4.9.253-tegra")]

/-- `board['platform']` with the "Machine" key absent. -/
def platformNoMachine : List (String × String) :=
  [("Distribution", "Ubuntu 18.04 Bionic Beaver"), ("Release", "4.9.253-tegra")]

/-- A fully-populated `board['hardware']` dictionary. -/
def fullHardware : List (String × String) :=
  [("Jetpack", "4.6"), ("L4T", "32.6.1"),
   ("Module", "NVIDIA Jetson Xavier NX"),
   ("Model", "NVIDIA Jetson Xavier NX Developer Kit"),
   ("Codename", "Jakku"), ("SoC", "tegra194"), ("CUDA Arch BIN", "7.2"),
   ("Serial Number", "1421021055560")]

/-- All six rails present. -/
def fullRails : List (String × RailReading) :=
  [("CPU", ⟨1500, 5000, 300⟩), ("CV", ⟨250, 5000, 50⟩),
   ("GPU", ⟨2000, 5000, 400⟩), ("SOC", ⟨1250, 5000, 250⟩),
   ("SYS5V", ⟨2500, 5000, 500⟩), ("VDDRQ", ⟨750, 5000, 150⟩)]

/-- The rail table with the "VDDRQ" rail entirely absent. -/
def railsNoVDDRQ : List (String × RailReading) :=
  [("CPU", ⟨1500, 5000, 300⟩), ("CV", ⟨250, 5000, 50⟩),
   ("GPU", ⟨2000, 5000, 400⟩), ("SOC", ⟨1250, 5000, 250⟩),
   ("SYS5V", ⟨2500, 5000, 500⟩)]

/-- A live snapshot with every required field present: full board identity,
eight per-core frequencies, all six rails; temperature map holds only
CPU = 45.0 and GPU = 38.2 (the spec's own example; 38.2 = 191/5 exactly). -/
def baseSnap : Snapshot :=
  { board_platform := fullPlatform, board_hardware := fullHardware,
    nvpmodel_name := "MODE_15W_6CORE", uptime_days := 2,
    uptime_seconds := 10000,
    cpu_cores := [100, 200, 300, 400, 500, 600, 700, 800],
    gpu_load := 55, ram_used := 3000, ram_shared := 400, ram_tot := 8000,
    disk_used := 10, disk_total := 30, disk_available := 20,
    disk_available_no_root := 18, fan_speed := 40, fan_rpm := 2000,
    swap_used := 100, swap_tot := 4096,
    temperature := [("CPU", 45), ("GPU", 38.2)], power_rail := fullRails }

/-- `baseSnap` with the "VDDRQ" rail missing. -/
def vddrqSnap : Snapshot := { baseSnap with power_rail := railsNoVDDRQ }

/-- `baseSnap` with only six per-core frequency entries. -/
def cpu6Snap : Snapshot :=
  { baseSnap with cpu_cores := [100, 200, 300, 400, 500, 600] }

/-- `baseSnap` with nine per-core frequency entries (one surplus core). -/
def cpu9Snap : Snapshot :=
  { baseSnap with cpu_cores := [100, 200, 300, 400, 500, 600, 700, 800, 900] }

/-- `baseSnap` with the "Machine" board identity field missing. -/
def noMachineSnap : Snapshot :=
  { baseSnap with board_platform := platformNoMachine }

/-! ### Helper lemmas -/

/-- The temperature idiom `d[k] if k in d else 0` is `Option.getD 0`. -/
theorem tempOrZero_eq_getD (m : List (String × ℚ)) (k : String) :
    tempOrZero m k = (lookup m k).getD 0 := by
  unfold tempOrZero
  cases lookup m k <;> rfl

/-- When every board identity key is present, the board family is the
complete single-record info family. -/
theorem boardFamily_eq (s : Snapshot)
    (machine distribution release jetpack l4t module model codename soc cuda serial : String)
    (h1 : lookup s.board_platform "Machine" = some machine)
    (h2 : lookup s.board_platform "Distribution" = some distribution)
    (h3 : lookup s.board_platform "Release" = some release)
    (h4 : lookup s.board_hardware "Jetpack" = some jetpack)
    (h5 : lookup s.board_hardware "L4T" = some l4t)
    (h6 : lookup s.board_hardware "Module" = some module)
    (h7 : lookup s.board_hardware "Model" = some model)
    (h8 : lookup s.board_hardware "Codename" = some codename)
    (h9 : lookup s.board_hardware "SoC" = some soc)
    (h10 : lookup s.board_hardware "CUDA Arch BIN" = some cuda)
    (h11 : lookup s.board_hardware "Serial Number" = some serial) :
    boardFamily s = Except.ok
      { name := "jetson_info_board", help := "Board sys info",
        labelKey := "board_info",
        records := [⟨"info", MetricValue.info
          [("machine", machine), ("distribution", distribution),
           ("release", release), ("jetpack", jetpack), ("l4t", l4t),
           ("module", module), ("type", model), ("codename", codename),
           ("soc", soc), ("cuda_arch_bin", cuda),
           ("serial_number", serial)]⟩] } := by
  simp [boardFamily, getKey, h1, h2, h3, h4, h5, h6, h7, h8, h9, h10, h11,
    Except.bind]

/-- When all six rails are present, the power, voltage and current families
are the complete six-record gauge families. -/
theorem railFamilies_eq (s : Snapshot) (rc rv rg rs ry rq : RailReading)
    (h1 : lookup s.power_rail "CPU" = some rc)
    (h2 : lookup s.power_rail "CV" = some rv)
    (h3 : lookup s.power_rail "GPU" = some rg)
    (h4 : lookup s.power_rail "SOC" = some rs)
    (h5 : lookup s.power_rail "SYS5V" = some ry)
    (h6 : lookup s.power_rail "VDDRQ" = some rq) :
    powerFamily s = Except.ok
      { name := "jetson_usage_power", help := "Power usage",
        labelKey := "power",
        records := [⟨"cpu", MetricValue.num rc.power⟩,
                    ⟨"cv", MetricValue.num rv.power⟩,
                    ⟨"gpu", MetricValue.num rg.power⟩,
                    ⟨"soc", MetricValue.num rs.power⟩,
                    ⟨"sys5v", MetricValue.num ry.power⟩,
                    ⟨"vddrq", MetricValue.num rq.power⟩] } ∧
    voltageFamily s = Except.ok
      { name := "jetson_usage_voltage_levels", help := "Voltage",
        labelKey := "voltage",
        records := [⟨"cpu", MetricValue.num rc.volt⟩,
                    ⟨"cv", MetricValue.num rv.volt⟩,
                    ⟨"gpu", MetricValue.num rg.volt⟩,
                    ⟨"soc", MetricValue.num rs.volt⟩,
                    ⟨"sys5v", MetricValue.num ry.volt⟩,
                    ⟨"vddrq", MetricValue.num rq.volt⟩] } ∧
    currentFamily s = Except.ok
      { name := "jetson_usage_current_values", help := "Current",
        labelKey := "current",
        records := [⟨"cpu", MetricValue.num rc.curr⟩,
                    ⟨"cv", MetricValue.num rv.curr⟩,
                    ⟨"gpu", MetricValue.num rg.curr⟩,
                    ⟨"soc", MetricValue.num rs.curr⟩,
                    ⟨"sys5v", MetricValue.num ry.curr⟩,
                    ⟨"vddrq", MetricValue.num rq.curr⟩] } := by
  refine ⟨?_, ?_, ?_⟩ <;>
    simp [powerFamily, voltageFamily, currentFamily, getKey,
      h1, h2, h3, h4, h5, h6, Except.bind]

/-- When the first five rails are present but "VDDRQ" is absent, the power
family construction raises on the "VDDRQ" lookup. -/
theorem powerFamily_errVDDRQ (s : Snapshot) (rc rv rg rs ry : RailReading)
    (h1 : lookup s.power_rail "CPU" = some rc)
    (h2 : lookup s.power_rail "CV" = some rv)
    (h3 : lookup s.power_rail "GPU" = some rg)
    (h4 : lookup s.power_rail "SOC" = some rs)
    (h5 : lookup s.power_rail "SYS5V" = some ry)
    (h6 : lookup s.power_rail "VDDRQ" = none) :
    powerFamily s = Except.error (FieldMissingError.key "VDDRQ") := by
  simp [powerFamily, getKey, h1, h2, h3, h4, h5, h6, Except.bind]

/-- With at least eight per-core entries, the CPU family succeeds and its
eight records carry the first eight frequencies in core-index order. -/
theorem cpuFamily_of_length (s : Snapshot) (h : 8 ≤ s.cpu_cores.length) :
    ∃ f, cpuFamily s = Except.ok f ∧ f.name = "jetson_usage_cpu" ∧
      f.help = "CPU % schedutil" ∧ f.labelKey = "cpu" ∧
      f.records.map MetricRecord.labelValue =
        ["cpu_1", "cpu_2", "cpu_3", "cpu_4", "cpu_5", "cpu_6", "cpu_7", "cpu_8"] ∧
      f.records.map MetricRecord.value =
        (s.cpu_cores.take 8).map MetricValue.num := by
  rcases hl : s.cpu_cores with
    _ | ⟨c0, _ | ⟨c1, _ | ⟨c2, _ | ⟨c3, _ | ⟨c4, _ | ⟨c5, _ | ⟨c6, _ | ⟨c7, rest⟩⟩⟩⟩⟩⟩⟩⟩ <;>
    rw [hl] at h <;> simp at h
  refine ⟨{ name := "jetson_usage_cpu", help := "CPU % schedutil",
            labelKey := "cpu",
            records := [⟨"cpu_1", MetricValue.num c0⟩,
                        ⟨"cpu_2", MetricValue.num c1⟩,
                        ⟨"cpu_3", MetricValue.num c2⟩,
                        ⟨"cpu_4", MetricValue.num c3⟩,
                        ⟨"cpu_5", MetricValue.num c4⟩,
                        ⟨"cpu_6", MetricValue.num c5⟩,
                        ⟨"cpu_7", MetricValue.num c6⟩,
                        ⟨"cpu_8", MetricValue.num c7⟩] },
        ?_, rfl, rfl, rfl, rfl, ?_⟩
  · simp only [cpuFamily, hl]
    rfl
  · rfl

/-- With fewer than eight per-core entries, the CPU family raises an
`IndexError` at the first missing index (which is the list's length). -/
theorem cpuFamily_short (s : Snapshot) (h : s.cpu_cores.length < 8) :
    cpuFamily s = Except.error (FieldMissingError.index s.cpu_cores.length) := by
  rcases hl : s.cpu_cores with
    _ | ⟨c0, _ | ⟨c1, _ | ⟨c2, _ | ⟨c3, _ | ⟨c4, _ | ⟨c5, _ | ⟨c6, _ | ⟨c7, rest⟩⟩⟩⟩⟩⟩⟩⟩ <;>
    first
      | (simp only [cpuFamily, hl]; rfl)
      | (exfalso; rw [hl] at h; simp only [List.length_cons] at h; omega)

/-! ### Claims -/

/-- C2: for every session state, if the liveness check is false at the start
of a render pass, `collect` yields the empty sequence of metric families and
raises nothing, regardless of what the snapshot contains. -/
theorem collect_dead_session_yields_nothing (s : Snapshot) :
    collect false s = ([], none) := rfl

/-- C8: `collect` is deterministic in its snapshot input: two render passes
over the same liveness state and the same snapshot produce identical ordered
sequences of families, records, names, label values and numeric values. -/
theorem collect_deterministic (alive : Bool) (s : Snapshot) :
    collect alive s = collect alive s := rfl

/-- C4: the temperature family always succeeds with exactly 7 records in the
fixed order ao, gpu, tdiode, aux, cpu, thermal, tboard; a sensor absent from
the snapshot's temperature mapping is rendered as 0, never omitted and never
an error; in particular for a mapping holding only CPU = 45.0 and GPU = 38.2
the records are ao=0, gpu=38.2, tdiode=0, aux=0, cpu=45, thermal=0,
tboard=0. -/
theorem temperature_family_seven_records_default_zero :
    (∀ s : Snapshot, temperatureFamily s = Except.ok
      { name := "jetson_temperatures", help := "Sensor temperatures",
        labelKey := "temperature",
        records :=
          [⟨"ao", MetricValue.num ((lookup s.temperature "AO").getD 0)⟩,
           ⟨"gpu", MetricValue.num ((lookup s.temperature "GPU").getD 0)⟩,
           ⟨"tdiode", MetricValue.num ((lookup s.temperature "Tdiode").getD 0)⟩,
           ⟨"aux", MetricValue.num ((lookup s.temperature "AUX").getD 0)⟩,
           ⟨"cpu", MetricValue.num ((lookup s.temperature "CPU").getD 0)⟩,
           ⟨"thermal", MetricValue.num ((lookup s.temperature "thermal").getD 0)⟩,
           ⟨"tboard", MetricValue.num ((lookup s.temperature "Tboard").getD 0)⟩] })
    ∧ temperatureFamily baseSnap = Except.ok
      { name := "jetson_temperatures", help := "Sensor temperatures",
        labelKey := "temperature",
        records :=
          [⟨"ao", MetricValue.num 0⟩, ⟨"gpu", MetricValue.num 38.2⟩,
           ⟨"tdiode", MetricValue.num 0⟩, ⟨"aux", MetricValue.num 0⟩,
           ⟨"cpu", MetricValue.num 45⟩, ⟨"thermal", MetricValue.num 0⟩,
           ⟨"tboard", MetricValue.num 0⟩] }
    ∧ (38.2 : ℚ) = 191 / 5 := by
  refine ⟨?_, rfl, by norm_num⟩
  intro s
  simp [temperatureFamily, tempOrZero_eq_getD]

/-- C6: for an uptime duration decomposed as (days, seconds) with
seconds < 86400, the uptime family has exactly three records: days taken as
given, hours = seconds // 3600 and minutes = (seconds // 60) % 60 with
integer floor division; for 2 days and 10000 seconds the records are
days=2, hours=2, minutes=46. -/
theorem uptime_family_days_hours_minutes :
    (∀ s : Snapshot, s.uptime_seconds < 86400 → uptimeFamily s = Except.ok
      { name := "jetson_uptime", help := "System uptime", labelKey := "uptime",
        records :=
          [⟨"days", MetricValue.num (s.uptime_days : ℚ)⟩,
           ⟨"hours", MetricValue.num ((s.uptime_seconds / 3600 : ℕ) : ℚ)⟩,
           ⟨"minutes", MetricValue.num ((s.uptime_seconds / 60 % 60 : ℕ) : ℚ)⟩] })
    ∧ uptimeFamily baseSnap = Except.ok
      { name := "jetson_uptime", help := "System uptime", labelKey := "uptime",
        records :=
          [⟨"days", MetricValue.num 2⟩, ⟨"hours", MetricValue.num 2⟩,
           ⟨"minutes", MetricValue.num 46⟩] } := by
  refine ⟨fun s _ => rfl, ?_⟩
  norm_num [uptimeFamily, baseSnap]

/-- Witness for C6 at the spec's own example: 2 days and 10000 seconds. -/
theorem uptime_family_witness :
    baseSnap.uptime_seconds < 86400 ∧ uptimeFamily baseSnap = Except.ok
      { name := "jetson_uptime", help := "System uptime", labelKey := "uptime",
        records :=
          [⟨"days", MetricValue.num (baseSnap.uptime_days : ℚ)⟩,
           ⟨"hours", MetricValue.num ((baseSnap.uptime_seconds / 3600 : ℕ) : ℚ)⟩,
           ⟨"minutes", MetricValue.num ((baseSnap.uptime_seconds / 60 % 60 : ℕ) : ℚ)⟩] } :=
  ⟨by decide, uptime_family_days_hours_minutes.1 baseSnap (by decide)⟩

/-- C5: with at least eight per-core entries the CPU family renders exactly
eight records in core-index order carrying the cores' current frequencies;
with fewer than eight entries the render raises an index error instead of
truncating; concretely [100,...,800] renders to exactly those eight values
in that order, and for a six-entry core list the render pass errors at
index 6. -/
theorem cpu_family_eight_records_or_error :
    (∀ s : Snapshot, 8 ≤ s.cpu_cores.length →
      ∃ f, cpuFamily s = Except.ok f ∧
        f.records.map MetricRecord.labelValue =
          ["cpu_1", "cpu_2", "cpu_3", "cpu_4", "cpu_5", "cpu_6", "cpu_7", "cpu_8"] ∧
        f.records.map MetricRecord.value =
          (s.cpu_cores.take 8).map MetricValue.num)
    ∧ (∀ s : Snapshot, s.cpu_cores.length < 8 →
        cpuFamily s = Except.error (FieldMissingError.index s.cpu_cores.length))
    ∧ (∃ f, cpuFamily baseSnap = Except.ok f ∧
        f.records.map MetricRecord.value =
          [MetricValue.num 100, MetricValue.num 200, MetricValue.num 300,
           MetricValue.num 400, MetricValue.num 500, MetricValue.num 600,
           MetricValue.num 700, MetricValue.num 800])
    ∧ (collect true cpu6Snap).2 = some (FieldMissingError.index 6) := by
  refine ⟨?_, cpuFamily_short, ⟨_, rfl, rfl⟩, rfl⟩
  intro s h
  obtain ⟨f, hf, -, -, -, h5, h6⟩ := cpuFamily_of_length s h
  exact ⟨f, hf, h5, h6⟩

/-- Witness for C5 at the spec's concrete inputs: the eight-entry list
[100,...,800] and a six-entry list. -/
theorem cpu_family_eight_records_or_error_witness :
    8 ≤ baseSnap.cpu_cores.length ∧
    (∃ f, cpuFamily baseSnap = Except.ok f ∧
      f.records.map MetricRecord.labelValue =
        ["cpu_1", "cpu_2", "cpu_3", "cpu_4", "cpu_5", "cpu_6", "cpu_7", "cpu_8"] ∧
      f.records.map MetricRecord.value =
        (baseSnap.cpu_cores.take 8).map MetricValue.num) ∧
    cpu6Snap.cpu_cores.length < 8 ∧
    cpuFamily cpu6Snap = Except.error (FieldMissingError.index cpu6Snap.cpu_cores.length) :=
  ⟨by decide, cpu_family_eight_records_or_error.1 baseSnap (by decide),
   by decide, cpu_family_eight_records_or_error.2.1 cpu6Snap (by decide)⟩

/-- C9: with strictly more than eight per-core entries the render still
succeeds and the CPU family contains exactly eight records for core indices
0-7, ignoring the surplus; concretely a nine-entry snapshot renders all 13
families with no error, the CPU family (4th) holding exactly 8 records. -/
theorem cpu_family_ignores_surplus_cores :
    (∀ s : Snapshot, 8 < s.cpu_cores.length →
      ∃ f, cpuFamily s = Except.ok f ∧ f.records.length = 8 ∧
        f.records.map MetricRecord.value =
          (s.cpu_cores.take 8).map MetricValue.num)
    ∧ (collect true cpu9Snap).2 = none
    ∧ (collect true cpu9Snap).1.map (fun f => f.records.length) =
        [1, 1, 3, 8, 1, 3, 4, 2, 2, 7, 6, 6, 6] := by
  refine ⟨?_, rfl, rfl⟩
  intro s h
  obtain ⟨f, hf, -, -, -, h5, h6⟩ := cpuFamily_of_length s (le_of_lt h)
  refine ⟨f, hf, ?_, h6⟩
  simpa using congrArg List.length h5

/-- Witness for C9 at a nine-entry core list. -/
theorem cpu_family_ignores_surplus_cores_witness :
    8 < cpu9Snap.cpu_cores.length ∧
    ∃ f, cpuFamily cpu9Snap = Except.ok f ∧ f.records.length = 8 ∧
      f.records.map MetricRecord.value =
        (cpu9Snap.cpu_cores.take 8).map MetricValue.num :=
  ⟨by decide, cpu_family_ignores_surplus_cores.1 cpu9Snap (by decide)⟩

/-- If the board family construction succeeds, every one of the eleven
identity keys was present. -/
theorem boardFamily_ok_lookups (s : Snapshot) (f : MetricFamily)
    (h : boardFamily s = Except.ok f) :
    (lookup s.board_platform "Machine").isSome ∧
    (lookup s.board_platform "Distribution").isSome ∧
    (lookup s.board_platform "Release").isSome ∧
    (lookup s.board_hardware "Jetpack").isSome ∧
    (lookup s.board_hardware "L4T").isSome ∧
    (lookup s.board_hardware "Module").isSome ∧
    (lookup s.board_hardware "Model").isSome ∧
    (lookup s.board_hardware "Codename").isSome ∧
    (lookup s.board_hardware "SoC").isSome ∧
    (lookup s.board_hardware "CUDA Arch BIN").isSome ∧
    (lookup s.board_hardware "Serial Number").isSome := by
  unfold boardFamily getKey at h
  cases k1 : lookup s.board_platform "Machine" <;> rw [k1] at h <;>
    simp only [Except.bind] at h
  case none => exact absurd h (by simp)
  cases k2 : lookup s.board_platform "Distribution" <;> rw [k2] at h <;>
    simp only [Except.bind] at h
  case none => exact absurd h (by simp)
  cases k3 : lookup s.board_platform "Release" <;> rw [k3] at h <;>
    simp only [Except.bind] at h
  case none => exact absurd h (by simp)
  cases k4 : lookup s.board_hardware "Jetpack" <;> rw [k4] at h <;>
    simp only [Except.bind] at h
  case none => exact absurd h (by simp)
  cases k5 : lookup s.board_hardware "L4T" <;> rw [k5] at h <;>
    simp only [Except.bind] at h
  case none => exact absurd h (by simp)
  cases k6 : lookup s.board_hardware "Module" <;> rw [k6] at h <;>
    simp only [Except.bind] at h
  case none => exact absurd h (by simp)
  cases k7 : lookup s.board_hardware "Model" <;> rw [k7] at h <;>
    simp only [Except.bind] at h
  case none => exact absurd h (by simp)
  cases k8 : lookup s.board_hardware "Codename" <;> rw [k8] at h <;>
    simp only [Except.bind] at h
  case none => exact absurd h (by simp)
  cases k9 : lookup s.board_hardware "SoC" <;> rw [k9] at h <;>
    simp only [Except.bind] at h
  case none => exact absurd h (by simp)
  cases k10 : lookup s.board_hardware "CUDA Arch BIN" <;> rw [k10] at h <;>
    simp only [Except.bind] at h
  case none => exact absurd h (by simp)
  cases k11 : lookup s.board_hardware "Serial Number" <;> rw [k11] at h <;>
    simp only [Except.bind] at h
  case none => exact absurd h (by simp)
  simp [k1, k2, k3, k4, k5, k6, k7, k8, k9, k10, k11]

/-- C7: if any of the eleven board identity fields is absent from a live
snapshot, the board family construction raises and -- the board family
being first in the pass -- the render delivers no family at all, so no
partially-populated identity record is ever emitted. -/
theorem board_family_fails_fast_on_missing_field (s : Snapshot)
    (h : lookup s.board_platform "Machine" = none ∨
         lookup s.board_platform "Distribution" = none ∨
         lookup s.board_platform "Release" = none ∨
         lookup s.board_hardware "Jetpack" = none ∨
         lookup s.board_hardware "L4T" = none ∨
         lookup s.board_hardware "Module" = none ∨
         lookup s.board_hardware "Model" = none ∨
         lookup s.board_hardware "Codename" = none ∨
         lookup s.board_hardware "SoC" = none ∨
         lookup s.board_hardware "CUDA Arch BIN" = none ∨
         lookup s.board_hardware "Serial Number" = none) :
    ∃ e, boardFamily s = Except.error e ∧ collect true s = ([], some e) := by
  cases hb : boardFamily s with
  | error e => exact ⟨e, rfl, by simp [collect, families, runFamilies, hb]⟩
  | ok f =>
    obtain ⟨p1, p2, p3, p4, p5, p6, p7, p8, p9, p10, p11⟩ :=
      boardFamily_ok_lookups s f hb
    rcases h with h | h | h | h | h | h | h | h | h | h | h <;> simp_all

/-- Witness for C7: a snapshot whose "Machine" field is missing. -/
theorem board_family_fails_fast_witness :
    lookup noMachineSnap.board_platform "Machine" = none ∧
    ∃ e, boardFamily noMachineSnap = Except.error e ∧
      collect true noMachineSnap = ([], some e) :=
  ⟨rfl, board_family_fails_fast_on_missing_field noMachineSnap (Or.inl rfl)⟩

/-- Counterexample to C1 as stated: a live snapshot with every required
field present renders without error, but the number of yielded metric
families is not 12 (it is 13: the power, voltage and current rail families
are three distinct families on top of the ten others). -/
theorem twelve_families_counterexample :
    (collect true baseSnap).2 = none ∧
    (collect true baseSnap).1.length = 13 ∧
    ¬ (collect true baseSnap).1.length = 12 := by
  refine ⟨rfl, rfl, by decide⟩

/-- C1 (amended): for every live snapshot in which all required fields are
present (all eleven board identity fields, per-core CPU frequency entries
for indices 0-7, and all six power rails), `collect` succeeds and yields
exactly 13 metric families, and the name and label key of each family are
fixed constants independent of the snapshot's field values. -/
theorem collect_live_full_thirteen_families (s : Snapshot)
    (h1 : (lookup s.board_platform "Machine").isSome)
    (h2 : (lookup s.board_platform "Distribution").isSome)
    (h3 : (lookup s.board_platform "Release").isSome)
    (h4 : (lookup s.board_hardware "Jetpack").isSome)
    (h5 : (lookup s.board_hardware "L4T").isSome)
    (h6 : (lookup s.board_hardware "Module").isSome)
    (h7 : (lookup s.board_hardware "Model").isSome)
    (h8 : (lookup s.board_hardware "Codename").isSome)
    (h9 : (lookup s.board_hardware "SoC").isSome)
    (h10 : (lookup s.board_hardware "CUDA Arch BIN").isSome)
    (h11 : (lookup s.board_hardware "Serial Number").isSome)
    (hc : 8 ≤ s.cpu_cores.length)
    (hr1 : (lookup s.power_rail "CPU").isSome)
    (hr2 : (lookup s.power_rail "CV").isSome)
    (hr3 : (lookup s.power_rail "GPU").isSome)
    (hr4 : (lookup s.power_rail "SOC").isSome)
    (hr5 : (lookup s.power_rail "SYS5V").isSome)
    (hr6 : (lookup s.power_rail "VDDRQ").isSome) :
    (collect true s).2 = none ∧
    (collect true s).1.length = 13 ∧
    (collect true s).1.map (fun f => (f.name, f.labelKey)) =
      [("jetson_info_board", "board_info"), ("jetson_nvpmode", "nvpmode"),
       ("jetson_uptime", "uptime"), ("jetson_usage_cpu", "cpu"),
       ("jetson_usage_gpu", "gpu"), ("jetson_usage_ram", "ram"),
       ("jetson_usage_disk", "disk"), ("jetson_usage_fan", "fan"),
       ("jetson_usage_swap", "swap"), ("jetson_temperatures", "temperature"),
       ("jetson_usage_power", "power"),
       ("jetson_usage_voltage_levels", "voltage"),
       ("jetson_usage_current_values", "current")] := by
  obtain ⟨m1, k1⟩ := Option.isSome_iff_exists.mp h1
  obtain ⟨m2, k2⟩ := Option.isSome_iff_exists.mp h2
  obtain ⟨m3, k3⟩ := Option.isSome_iff_exists.mp h3
  obtain ⟨m4, k4⟩ := Option.isSome_iff_exists.mp h4
  obtain ⟨m5, k5⟩ := Option.isSome_iff_exists.mp h5
  obtain ⟨m6, k6⟩ := Option.isSome_iff_exists.mp h6
  obtain ⟨m7, k7⟩ := Option.isSome_iff_exists.mp h7
  obtain ⟨m8, k8⟩ := Option.isSome_iff_exists.mp h8
  obtain ⟨m9, k9⟩ := Option.isSome_iff_exists.mp h9
  obtain ⟨m10, k10⟩ := Option.isSome_iff_exists.mp h10
  obtain ⟨m11, k11⟩ := Option.isSome_iff_exists.mp h11
  obtain ⟨r1, q1⟩ := Option.isSome_iff_exists.mp hr1
  obtain ⟨r2, q2⟩ := Option.isSome_iff_exists.mp hr2
  obtain ⟨r3, q3⟩ := Option.isSome_iff_exists.mp hr3
  obtain ⟨r4, q4⟩ := Option.isSome_iff_exists.mp hr4
  obtain ⟨r5, q5⟩ := Option.isSome_iff_exists.mp hr5
  obtain ⟨r6, q6⟩ := Option.isSome_iff_exists.mp hr6
  have hb := boardFamily_eq s m1 m2 m3 m4 m5 m6 m7 m8 m9 m10 m11
    k1 k2 k3 k4 k5 k6 k7 k8 k9 k10 k11
  obtain ⟨fc, hfc, hcn, hch, hck, hclv, hcv⟩ := cpuFamily_of_length s hc
  obtain ⟨hp, hv, hcu⟩ := railFamilies_eq s r1 r2 r3 r4 r5 r6 q1 q2 q3 q4 q5 q6
  refine ⟨?_, ?_, ?_⟩ <;>
    simp [collect, families, runFamilies, hb, hfc, hp, hv, hcu,
      nvpmodeFamily, uptimeFamily, gpuFamily, ramFamily, diskFamily,
      fanFamily, swapFamily, temperatureFamily, hcn, hck]

/-- Witness for the amended C1 at a fully-populated live snapshot. -/
theorem collect_live_full_thirteen_families_witness :
    (collect true baseSnap).2 = none ∧
    (collect true baseSnap).1.length = 13 ∧
    (collect true baseSnap).1.map (fun f => (f.name, f.labelKey)) =
      [("jetson_info_board", "board_info"), ("jetson_nvpmode", "nvpmode"),
       ("jetson_uptime", "uptime"), ("jetson_usage_cpu", "cpu"),
       ("jetson_usage_gpu", "gpu"), ("jetson_usage_ram", "ram"),
       ("jetson_usage_disk", "disk"), ("jetson_usage_fan", "fan"),
       ("jetson_usage_swap", "swap"), ("jetson_temperatures", "temperature"),
       ("jetson_usage_power", "power"),
       ("jetson_usage_voltage_levels", "voltage"),
       ("jetson_usage_current_values", "current")] :=
  collect_live_full_thirteen_families baseSnap rfl rfl rfl rfl rfl rfl rfl
    rfl rfl rfl rfl (by decide) rfl rfl rfl rfl rfl rfl

/-- When the snapshot is complete up to the rails but the "VDDRQ" rail is
absent, the render pass delivers exactly the first ten families (board info
through temperatures) and then raises on the power family's "VDDRQ"
lookup. -/
theorem collect_vddrq_missing (s : Snapshot)
    (h1 : (lookup s.board_platform "Machine").isSome)
    (h2 : (lookup s.board_platform "Distribution").isSome)
    (h3 : (lookup s.board_platform "Release").isSome)
    (h4 : (lookup s.board_hardware "Jetpack").isSome)
    (h5 : (lookup s.board_hardware "L4T").isSome)
    (h6 : (lookup s.board_hardware "Module").isSome)
    (h7 : (lookup s.board_hardware "Model").isSome)
    (h8 : (lookup s.board_hardware "Codename").isSome)
    (h9 : (lookup s.board_hardware "SoC").isSome)
    (h10 : (lookup s.board_hardware "CUDA Arch BIN").isSome)
    (h11 : (lookup s.board_hardware "Serial Number").isSome)
    (hc : 8 ≤ s.cpu_cores.length)
    (hr1 : (lookup s.power_rail "CPU").isSome)
    (hr2 : (lookup s.power_rail "CV").isSome)
    (hr3 : (lookup s.power_rail "GPU").isSome)
    (hr4 : (lookup s.power_rail "SOC").isSome)
    (hr5 : (lookup s.power_rail "SYS5V").isSome)
    (hq : lookup s.power_rail "VDDRQ" = none) :
    (collect true s).1.map MetricFamily.name =
      ["jetson_info_board", "jetson_nvpmode", "jetson_uptime",
       "jetson_usage_cpu", "jetson_usage_gpu", "jetson_usage_ram",
       "jetson_usage_disk", "jetson_usage_fan", "jetson_usage_swap",
       "jetson_temperatures"] ∧
    (collect true s).1.length = 10 ∧
    (collect true s).2 = some (FieldMissingError.key "VDDRQ") := by
  obtain ⟨m1, k1⟩ := Option.isSome_iff_exists.mp h1
  obtain ⟨m2, k2⟩ := Option.isSome_iff_exists.mp h2
  obtain ⟨m3, k3⟩ := Option.isSome_iff_exists.mp h3
  obtain ⟨m4, k4⟩ := Option.isSome_iff_exists.mp h4
  obtain ⟨m5, k5⟩ := Option.isSome_iff_exists.mp h5
  obtain ⟨m6, k6⟩ := Option.isSome_iff_exists.mp h6
  obtain ⟨m7, k7⟩ := Option.isSome_iff_exists.mp h7
  obtain ⟨m8, k8⟩ := Option.isSome_iff_exists.mp h8
  obtain ⟨m9, k9⟩ := Option.isSome_iff_exists.mp h9
  obtain ⟨m10, k10⟩ := Option.isSome_iff_exists.mp h10
  obtain ⟨m11, k11⟩ := Option.isSome_iff_exists.mp h11
  obtain ⟨r1, q1⟩ := Option.isSome_iff_exists.mp hr1
  obtain ⟨r2, q2⟩ := Option.isSome_iff_exists.mp hr2
  obtain ⟨r3, q3⟩ := Option.isSome_iff_exists.mp hr3
  obtain ⟨r4, q4⟩ := Option.isSome_iff_exists.mp hr4
  obtain ⟨r5, q5⟩ := Option.isSome_iff_exists.mp hr5
  have hb := boardFamily_eq s m1 m2 m3 m4 m5 m6 m7 m8 m9 m10 m11
    k1 k2 k3 k4 k5 k6 k7 k8 k9 k10 k11
  obtain ⟨fc, hfc, hcn, hch, hck, hclv, hcv⟩ := cpuFamily_of_length s hc
  have hp := powerFamily_errVDDRQ s r1 r2 r3 r4 r5 q1 q2 q3 q4 q5 hq
  refine ⟨?_, ?_, ?_⟩ <;>
    simp [collect, families, runFamilies, hb, hfc, hp,
      nvpmodeFamily, uptimeFamily, gpuFamily, ramFamily, diskFamily,
      fanFamily, swapFamily, temperatureFamily, hcn]

/-- C3: for a live snapshot (complete up to the rails) whose power-rail
mapping is missing "VDDRQ", the render pass raises the field-missing error
on "VDDRQ" and no power, voltage or current family -- partial or otherwise
-- is ever delivered: the missing rail is never rendered as a zero-valued
record. -/
theorem rail_missing_is_atomic_failure (s : Snapshot)
    (h1 : (lookup s.board_platform "Machine").isSome)
    (h2 : (lookup s.board_platform "Distribution").isSome)
    (h3 : (lookup s.board_platform "Release").isSome)
    (h4 : (lookup s.board_hardware "Jetpack").isSome)
    (h5 : (lookup s.board_hardware "L4T").isSome)
    (h6 : (lookup s.board_hardware "Module").isSome)
    (h7 : (lookup s.board_hardware "Model").isSome)
    (h8 : (lookup s.board_hardware "Codename").isSome)
    (h9 : (lookup s.board_hardware "SoC").isSome)
    (h10 : (lookup s.board_hardware "CUDA Arch BIN").isSome)
    (h11 : (lookup s.board_hardware "Serial Number").isSome)
    (hc : 8 ≤ s.cpu_cores.length)
    (hr1 : (lookup s.power_rail "CPU").isSome)
    (hr2 : (lookup s.power_rail "CV").isSome)
    (hr3 : (lookup s.power_rail "GPU").isSome)
    (hr4 : (lookup s.power_rail "SOC").isSome)
    (hr5 : (lookup s.power_rail "SYS5V").isSome)
    (hq : lookup s.power_rail "VDDRQ" = none) :
    (collect true s).2 = some (FieldMissingError.key "VDDRQ") ∧
    ∀ f ∈ (collect true s).1,
      f.name ≠ "jetson_usage_power" ∧
      f.name ≠ "jetson_usage_voltage_levels" ∧
      f.name ≠ "jetson_usage_current_values" := by
  obtain ⟨hmap, hlen, herr⟩ := collect_vddrq_missing s h1 h2 h3 h4 h5 h6 h7
    h8 h9 h10 h11 hc hr1 hr2 hr3 hr4 hr5 hq
  refine ⟨herr, ?_⟩
  intro f hf
  have hmem : f.name ∈
      ["jetson_info_board", "jetson_nvpmode", "jetson_uptime",
       "jetson_usage_cpu", "jetson_usage_gpu", "jetson_usage_ram",
       "jetson_usage_disk", "jetson_usage_fan", "jetson_usage_swap",
       "jetson_temperatures"] :=
    hmap ▸ List.mem_map_of_mem MetricFamily.name hf
  simp only [List.mem_cons, List.not_mem_nil, or_false] at hmem
  rcases hmem with h | h | h | h | h | h | h | h | h | h <;>
    rw [h] <;> exact ⟨by decide, by decide, by decide⟩

/-- Witness for C3 at a concrete snapshot whose rail table lacks "VDDRQ". -/
theorem rail_missing_is_atomic_failure_witness :
    lookup vddrqSnap.power_rail "VDDRQ" = none ∧
    ((collect true vddrqSnap).2 = some (FieldMissingError.key "VDDRQ") ∧
     ∀ f ∈ (collect true vddrqSnap).1,
       f.name ≠ "jetson_usage_power" ∧
       f.name ≠ "jetson_usage_voltage_levels" ∧
       f.name ≠ "jetson_usage_current_values") :=
  ⟨rfl, rail_missing_is_atomic_failure vddrqSnap rfl rfl rfl rfl rfl rfl rfl
    rfl rfl rfl rfl (by decide) rfl rfl rfl rfl rfl rfl⟩

/-- C10: the family sequence is produced lazily in a fixed order, so when
the "VDDRQ" rail is missing from an otherwise complete live snapshot, every
family positioned before the failing power family -- board info through
temperatures, ten families -- is still fully produced and delivered to the
consumer before the error is raised. -/
theorem collect_delivers_prefix_before_failure (s : Snapshot)
    (h1 : (lookup s.board_platform "Machine").isSome)
    (h2 : (lookup s.board_platform "Distribution").isSome)
    (h3 : (lookup s.board_platform "Release").isSome)
    (h4 : (lookup s.board_hardware "Jetpack").isSome)
    (h5 : (lookup s.board_hardware "L4T").isSome)
    (h6 : (lookup s.board_hardware "Module").isSome)
    (h7 : (lookup s.board_hardware "Model").isSome)
    (h8 : (lookup s.board_hardware "Codename").isSome)
    (h9 : (lookup s.board_hardware "SoC").isSome)
    (h10 : (lookup s.board_hardware "CUDA Arch BIN").isSome)
    (h11 : (lookup s.board_hardware "Serial Number").isSome)
    (hc : 8 ≤ s.cpu_cores.length)
    (hr1 : (lookup s.power_rail "CPU").isSome)
    (hr2 : (lookup s.power_rail "CV").isSome)
    (hr3 : (lookup s.power_rail "GPU").isSome)
    (hr4 : (lookup s.power_rail "SOC").isSome)
    (hr5 : (lookup s.power_rail "SYS5V").isSome)
    (hq : lookup s.power_rail "VDDRQ" = none) :
    (collect true s).1.length = 10 ∧
    (collect true s).1.map MetricFamily.name =
      ["jetson_info_board", "jetson_nvpmode", "jetson_uptime",
       "jetson_usage_cpu", "jetson_usage_gpu", "jetson_usage_ram",
       "jetson_usage_disk", "jetson_usage_fan", "jetson_usage_swap",
       "jetson_temperatures"] ∧
    (collect true s).2 = some (FieldMissingError.key "VDDRQ") := by
  obtain ⟨hmap, hlen, herr⟩ := collect_vddrq_missing s h1 h2 h3 h4 h5 h6 h7
    h8 h9 h10 h11 hc hr1 hr2 hr3 hr4 hr5 hq
  exact ⟨hlen, hmap, herr⟩

/-- Witness for C10 at a concrete snapshot whose rail table lacks
"VDDRQ". -/
theorem collect_delivers_prefix_before_failure_witness :
    lookup vddrqSnap.power_rail "VDDRQ" = none ∧
    ((collect true vddrqSnap).1.length = 10 ∧
     (collect true vddrqSnap).1.map MetricFamily.name =
       ["jetson_info_board", "jetson_nvpmode", "jetson_uptime",
        "jetson_usage_cpu", "jetson_usage_gpu", "jetson_usage_ram",
        "jetson_usage_disk", "jetson_usage_fan", "jetson_usage_swap",
        "jetson_temperatures"] ∧
     (collect true vddrqSnap).2 = some (FieldMissingError.key "VDDRQ")) :=
  ⟨rfl, collect_delivers_prefix_before_failure vddrqSnap rfl rfl rfl rfl rfl
    rfl rfl rfl rfl rfl rfl (by decide) rfl rfl rfl rfl rfl rfl⟩
